import Mathlib

/-!
Verification development for the lottery smart contract in `src/lib.rs`
(ink! contract `lottery`).  The contract state, the registration and draw
operations, and the payout arithmetic are shallowly embedded below:

* `AccountId` is `Nat`, with `0` playing the role of `AccountId::default()`
  (the empty-slot sentinel).
* `Balance` and `BlockNumber` (`u128` / `u32` in the source) are `Nat`;
  additions on them cannot realistically overflow and checked arithmetic in
  the contract would abort the whole call on overflow, so plain `Nat`
  arithmetic is the faithful model of every committed state.  Division is
  Nat division, matching truncating integer division of the source.
* The u32 subtraction `now - last_drawing` is modelled by Nat subtraction;
  block numbers are monotone so the subtrahend never exceeds the minuend in
  any reachable call.
* The storage `Mapping<([u8; 3], u8), [AccountId; 8]>` is modelled as an
  association list where `insert` prepends and `get` returns the first
  binding, which has the same get/insert/contains behaviour as the source
  mapping.
* A Rust panic (`assert!` failure) aborts the transaction and commits no
  state; it is modelled by the `Outcome.trap msg` result, which carries no
  successor state.
* Ledger transfers and event emission are external side effects with no
  influence on contract storage and are not part of the state model.
-/

namespace LotterySpec

/-- Account identifiers; `0` is `AccountId::default()`, the empty-slot
sentinel. -/
abbrev AccountId := Nat

abbrev Balance := Nat

abbrev BlockNumber := Nat

/-- A ticket identifier: a 3-byte value `[u8; 3]`. -/
abbrev Ticket := Nat × Nat × Nat

/-- A participant slot array `[AccountId; 8]` (always of length 8 in every
stored value). -/
abbrev Slots := List AccountId

/-- The constant `default_address` field: `[AccountId::default(); 8]`.  It is
set once in `new_init` and never written again, so it is a constant of the
model. -/
def defaultAddress : Slots := List.replicate 8 0

/-- Source constant `BET_PRICE: Balance = 1_000_000`. -/
def BET_PRICE : Balance := 1000000

/-- Source constant `BLOCKS_PER_ROUND: u32 = 10`. -/
def BLOCKS_PER_ROUND : Nat := 10

/-- The `ticket_and_address` storage mapping, keyed by (ticket, round). -/
abbrev TMap := List ((Ticket × Nat) × Slots)

/-- Mapping lookup: `Mapping::get`, returning the most recently inserted
binding for the key. -/
def mapGet : TMap → (Ticket × Nat) → Option Slots
  | [], _ => none
  | (k, v) :: rest, k' => if k = k' then some v else mapGet rest k'

/-- Mapping insertion: `Mapping::insert` (overwrite semantics, realised by
prepending, with `mapGet` returning the newest binding). -/
def mapInsert (m : TMap) (k : Ticket × Nat) (v : Slots) : TMap :=
  (k, v) :: m

/-- The contract storage struct `Lottery` from `src/lib.rs` (the constant
`default_address` field is the constant `defaultAddress` above). -/
structure Lottery where
  ticket_and_address : TMap
  round : Nat
  last_drawing : BlockNumber
  jackpot : Balance
  winner_ticket : Ticket
  last_jackpot : Balance
  last_pot_per_ticket : Balance
deriving Repr, DecidableEq

/-- Constructor `new` / `new_init`: round 0, the `([0;3], 0)` key bound to the
all-default array, zero pools, `last_drawing` set to the creation block. -/
def new (creationBlock : BlockNumber) : Lottery where
  ticket_and_address := mapInsert [] (((0, 0, 0) : Ticket), 0) defaultAddress
  round := 0
  last_drawing := creationBlock
  jackpot := 0
  winner_ticket := (0, 0, 0)
  last_jackpot := 0
  last_pot_per_ticket := 0

/-- Outcome of a contract call: either a committed successor state, or a
panic (`assert!` failure / fatal abort), which rolls the transaction back and
commits nothing. -/
inductive Outcome where
  | trap (msg : String)
  | ok (s : Lottery)
deriving Repr, DecidableEq

/-- Source `get_number_of_winner`: count the non-default entries among the 8
winner slots (the loop `for i in 0..8`). -/
def get_number_of_winner (winners : Slots) : Nat :=
  winners.countP (fun a => decide (a ≠ 0))

/-- Source `reset_game`: increment the round, snapshot the jackpot into
`last_jackpot`, zero the jackpot. -/
def reset_game (s : Lottery) : Lottery :=
  { s with round := s.round + 1, last_jackpot := s.jackpot, jackpot := 0 }

/-- Source `transfer_to_winners`: when the jackpot is positive and there is at
least one winner, record the per-winner payout
`(jackpot / 8) * (8 / number_of_winners)` and close the round; the ledger
transfers themselves are external effects.  Otherwise the state is
unchanged. -/
def transfer_to_winners (s : Lottery) (winners : Slots) : Lottery :=
  if s.jackpot > 0 then
    let number_of_winners := get_number_of_winner winners
    let jackpot_balance : Balance := s.jackpot / 8
    if number_of_winners > 0 then
      let jack_multiplication := 8 / number_of_winners
      reset_game { s with
        last_pot_per_ticket := jackpot_balance * jack_multiplication }
    else s
  else s

/-- Source `get_winner_or_default`: the slot array stored for the current
winner ticket in the current round, or the default array. -/
def get_winner_or_default (s : Lottery) : Slots :=
  (mapGet s.ticket_and_address (s.winner_ticket, s.round)).getD defaultAddress

/-- Source `draw` (lines 154-166): sets `winner_ticket` to the hard-coded
bytes `[240, 240, 0]` (no call to the randomness chain extension appears in
the function body), sets `last_drawing` to the current block, and pays out if
the winner slot array is not the default one. -/
def draw (s : Lottery) (now : BlockNumber) : Lottery :=
  let s1 := { s with winner_ticket := ((240, 240, 0) : Ticket),
                     last_drawing := now }
  let winners := get_winner_or_default s1
  if winners ≠ defaultAddress then transfer_to_winners s1 winners else s1

/-- The slot-filling loop of `register_ticket`: place `caller` in the first
slot equal to the default sentinel, scanning left to right, and stop. -/
def fill_first_empty : Slots → AccountId → Slots
  | [], _ => []
  | a :: rest, caller =>
      if a = 0 then caller :: rest else a :: fill_first_empty rest caller

/-- The validation and slot-assignment part of `register_ticket` (everything
before the rollover check): assert the transferred value equals `BET_PRICE`,
credit the jackpot, then either extend the existing slot array (asserting
slot 7 is still empty) or create a fresh one with the caller in slot 0.
In the source the jackpot credit happens textually before the slot logic;
it is folded into each committed result here, which is observationally
identical because a panic commits no state at all and the credit affects
neither the mapping nor the round that the slot logic reads. -/
def register_slots (s : Lottery) (ticket : Ticket) (caller : AccountId)
    (trans_bal : Balance) : Outcome :=
  if trans_bal ≠ BET_PRICE then .trap "insufficient funds!"
  else
    match mapGet s.ticket_and_address (ticket, s.round) with
    | some ticket_buyer =>
        if ticket_buyer.getD 7 0 ≠ 0 then .trap "ticket sold out!"
        else .ok { s with
          jackpot := s.jackpot + trans_bal,
          ticket_and_address := mapInsert s.ticket_and_address
            (ticket, s.round) (fill_first_empty ticket_buyer caller) }
    | none =>
        .ok { s with
          jackpot := s.jackpot + trans_bal,
          ticket_and_address := mapInsert s.ticket_and_address
            (ticket, s.round) (caller :: List.replicate 7 0) }

/-- Source `register_ticket` (lines 114-152): validation and slot assignment,
then the round-rollover check
`now - last_drawing >= BLOCKS_PER_ROUND && now != 0`, triggering `draw` when
it holds. -/
def register_ticket (s : Lottery) (ticket : Ticket) (caller : AccountId)
    (trans_bal : Balance) (now : BlockNumber) : Outcome :=
  match register_slots s ticket caller trans_bal with
  | .trap m => .trap m
  | .ok s1 =>
      if BLOCKS_PER_ROUND ≤ now - s1.last_drawing ∧ now ≠ 0 then
        .ok (draw s1 now)
      else .ok s1

/-- A sequence of `register_ticket` calls for the same ticket, one per listed
caller, all paying `BET_PRICE` at the same block; it stops at the first
abort. -/
def register_many (s : Lottery) (ticket : Ticket) (callers : List AccountId)
    (now : BlockNumber) : Outcome :=
  match callers with
  | [] => .ok s
  | c :: rest =>
      match register_ticket s ticket c BET_PRICE now with
      | .trap m => .trap m
      | .ok s1 => register_many s1 ticket rest now

/-- Source `get_accounts_by_ticket`: slot array for (ticket, current round),
defaulting to the all-default array. -/
def get_accounts_by_ticket (s : Lottery) (ticket_hash : Ticket) : Slots :=
  (mapGet s.ticket_and_address (ticket_hash, s.round)).getD defaultAddress

/-- Source `get_last_winner_or_default`: slot array of the winner ticket in
the previous round, guarding `round == 0` by returning the default array. -/
def get_last_winner_or_default (s : Lottery) : Slots :=
  if s.round = 0 then defaultAddress
  else (mapGet s.ticket_and_address
          (s.winner_ticket, s.round - 1)).getD defaultAddress

/-- A slot array is left-aligned when no non-default entry appears to the
right of a default one. -/
def left_aligned : Slots → Bool
  | [] => true
  | a :: rest =>
      if a = 0 then rest.all (fun b => b == 0) else left_aligned rest

/-- Well-formedness of the mapping contents: every stored slot array has
exactly 8 entries and is left-aligned. -/
def tmapWF (m : TMap) : Bool :=
  m.all (fun p => p.2.length == 8 && left_aligned p.2)

/-- Well-formedness of a contract state. -/
def wf (s : Lottery) : Bool := tmapWF s.ticket_and_address

/-! Helper lemmas shared by the claim theorems. -/

/-- Closed form of `transfer_to_winners`: the round closes exactly when the
jackpot is positive and at least one winner slot is non-default. -/
theorem transfer_to_winners_eq (s : Lottery) (w : Slots) :
    transfer_to_winners s w =
      if 0 < s.jackpot ∧ 0 < get_number_of_winner w then
        reset_game { s with last_pot_per_ticket :=
          s.jackpot / 8 * (8 / get_number_of_winner w) }
      else s := by
  unfold transfer_to_winners
  by_cases h1 : 0 < s.jackpot <;> by_cases h2 : 0 < get_number_of_winner w <;>
    simp [h1, h2]

/-- The payout never touches the mapping, the winner ticket or the drawing
timestamp. -/
theorem transfer_to_winners_frame (s : Lottery) (w : Slots) :
    (transfer_to_winners s w).ticket_and_address = s.ticket_and_address ∧
    (transfer_to_winners s w).winner_ticket = s.winner_ticket ∧
    (transfer_to_winners s w).last_drawing = s.last_drawing := by
  rw [transfer_to_winners_eq]
  split <;> simp [reset_game]

/-- Fields of a state after `draw`: the mapping is untouched, the winner
ticket is the hard-coded constant, the drawing timestamp is the current
block. -/
theorem draw_frame (s : Lottery) (now : BlockNumber) :
    (draw s now).ticket_and_address = s.ticket_and_address ∧
    (draw s now).winner_ticket = ((240, 240, 0) : Ticket) ∧
    (draw s now).last_drawing = now := by
  simp only [draw]
  split
  · refine ⟨(transfer_to_winners_frame _ _).1, ?_, ?_⟩
    · rw [(transfer_to_winners_frame _ _).2.1]
    · rw [(transfer_to_winners_frame _ _).2.2]
  · exact ⟨rfl, rfl, rfl⟩

/-- Fields preserved by a successful `register_slots`. -/
theorem register_slots_ok_frame (s : Lottery) (t : Ticket) (c : AccountId)
    (b : Balance) (s1 : Lottery) (h : register_slots s t c b = .ok s1) :
    s1.round = s.round ∧ s1.last_drawing = s.last_drawing ∧
    s1.winner_ticket = s.winner_ticket ∧ s1.jackpot = s.jackpot + b := by
  unfold register_slots at h
  split at h
  · exact absurd h (by simp)
  · split at h
    · split at h
      · exact absurd h (by simp)
      · injection h with h
        subst h
        exact ⟨rfl, rfl, rfl, rfl⟩
    · injection h with h
      subst h
      exact ⟨rfl, rfl, rfl, rfl⟩

/-- A slot array of zeros is left-aligned. -/
theorem all_zero_left_aligned (l : Slots)
    (h : l.all (fun b => b == 0) = true) : left_aligned l = true := by
  induction l with
  | nil => rfl
  | cons a rest ih =>
      rw [List.all_cons, Bool.and_eq_true, beq_iff_eq] at h
      simp only [left_aligned, h.1, if_pos]
      exact h.2

/-- Filling the first empty slot preserves left-alignment. -/
theorem fill_first_empty_left_aligned (l : Slots) (c : AccountId)
    (h : left_aligned l = true) :
    left_aligned (fill_first_empty l c) = true := by
  induction l with
  | nil => simpa [fill_first_empty] using h
  | cons a rest ih =>
      simp only [left_aligned] at h
      by_cases ha : a = 0
      · rw [if_pos ha] at h
        simp only [fill_first_empty, if_pos ha, left_aligned]
        by_cases hc : c = 0
        · rw [if_pos hc]
          exact h
        · rw [if_neg hc]
          exact all_zero_left_aligned rest h
      · rw [if_neg ha] at h
        simp only [fill_first_empty, if_neg ha, left_aligned]
        exact ih h

/-- Filling the first empty slot preserves the array length. -/
theorem fill_first_empty_length (l : Slots) (c : AccountId) :
    (fill_first_empty l c).length = l.length := by
  induction l with
  | nil => rfl
  | cons a rest ih =>
      simp only [fill_first_empty]
      by_cases ha : a = 0
      · rw [if_pos ha]
        rfl
      · rw [if_neg ha]
        simp [ih]

/-- A fresh slot array with the caller in slot 0 is left-aligned. -/
theorem left_aligned_fresh (c : AccountId) :
    left_aligned (c :: List.replicate 7 0) = true := by
  by_cases hc : c = 0
  · simp only [left_aligned, if_pos hc]
    decide
  · simp only [left_aligned, if_neg hc]
    decide

/-- Every value retrievable from a well-formed mapping satisfies the slot
invariant. -/
theorem tmapWF_get (m : TMap) (k : Ticket × Nat) (v : Slots)
    (hwf : tmapWF m = true) (hget : mapGet m k = some v) :
    v.length = 8 ∧ left_aligned v = true := by
  induction m with
  | nil => exact absurd hget (by simp [mapGet])
  | cons p rest ih =>
      obtain ⟨k', v'⟩ := p
      rw [tmapWF, List.all_cons, Bool.and_eq_true] at hwf
      simp only [mapGet] at hget
      by_cases hk : k' = k
      · rw [if_pos hk] at hget
        injection hget with hget
        subst hget
        have := hwf.1
        rw [Bool.and_eq_true, beq_iff_eq] at this
        exact this
      · rw [if_neg hk] at hget
        exact ih hwf.2 hget

/-- A successful `register_slots` preserves well-formedness of the stored
slot arrays. -/
theorem register_slots_wf (s : Lottery) (t : Ticket) (c : AccountId)
    (b : Balance) (s1 : Lottery) (hwf : wf s = true)
    (h : register_slots s t c b = .ok s1) : wf s1 = true := by
  unfold register_slots at h
  split at h
  · exact absurd h (by simp)
  · split at h
    case _ buyers hm =>
      split at h
      · exact absurd h (by simp)
      · injection h with h
        subst h
        obtain ⟨hl, hla⟩ := tmapWF_get s.ticket_and_address (t, s.round)
          buyers hwf hm
        simp only [wf, tmapWF, mapInsert, List.all_cons, Bool.and_eq_true]
        refine ⟨⟨?_, fill_first_empty_left_aligned buyers c hla⟩, hwf⟩
        rw [beq_iff_eq, fill_first_empty_length, hl]
    case _ hm =>
      injection h with h
      subst h
      simp only [wf, tmapWF, mapInsert, List.all_cons, Bool.and_eq_true]
      refine ⟨⟨by simp, left_aligned_fresh c⟩, hwf⟩

/-! Claim theorems. -/

/-- C1: against the claim that `draw` requests a random block from the
oracle and derives the winner from its first 3 bytes, the function body of
`draw` in `src/lib.rs` performs no chain-extension call at all and assigns
the fixed bytes `[240, 240, 0]`; evaluated on a fresh contract it therefore
records `[240, 240, 0]` and not the first three bytes `[21, 236, 123]` that
the test suite feeds through the mocked oracle and expects back. -/
theorem draw_hardcoded_winner_at_fresh_state :
    (draw (new 0) 10).winner_ticket = ((240, 240, 0) : Ticket) ∧
    (draw (new 0) 10).winner_ticket ≠ ((21, 236, 123) : Ticket) := by
  decide

/-- C2: in every payout with a positive pool, the winner count is the number
of non-default entries among the 8 winner slots (`get_number_of_winner`), and
with at least one winner the recorded per-winner payout is
`(pool / 8) * (8 / n)` with truncating division; in particular the
multiplier is 4 for n = 2, 2 for n = 3, 2 for n = 4, and 1 for n = 8. -/
theorem transfer_to_winners_payout (s : Lottery) (w : Slots)
    (hpool : 0 < s.jackpot) (n : Nat) (hn : n = get_number_of_winner w)
    (hpos : 0 < n) :
    (transfer_to_winners s w).last_pot_per_ticket =
      s.jackpot / 8 * (8 / n) ∧
    (n = 2 → (transfer_to_winners s w).last_pot_per_ticket =
      s.jackpot / 8 * 4) ∧
    (n = 3 → (transfer_to_winners s w).last_pot_per_ticket =
      s.jackpot / 8 * 2) ∧
    (n = 4 → (transfer_to_winners s w).last_pot_per_ticket =
      s.jackpot / 8 * 2) ∧
    (n = 8 → (transfer_to_winners s w).last_pot_per_ticket =
      s.jackpot / 8 * 1) := by
  subst hn
  have hmain : (transfer_to_winners s w).last_pot_per_ticket =
      s.jackpot / 8 * (8 / get_number_of_winner w) := by
    rw [transfer_to_winners_eq, if_pos ⟨hpool, hpos⟩]
    simp [reset_game]
  refine ⟨hmain, ?_, ?_, ?_, ?_⟩ <;> intro h <;> rw [hmain, h]

/-- Witness for C2 at pool 5,000,000 and two winners: the recorded payout is
`(5000000 / 8) * (8 / 2) = 2500000`. -/
theorem transfer_to_winners_payout_witness :
    (transfer_to_winners
        (⟨[], 0, 0, 5000000, ((0, 0, 0) : Ticket), 0, 0⟩ : Lottery)
        [7, 7, 0, 0, 0, 0, 0, 0]).last_pot_per_ticket =
      (5000000 : Balance) / 8 * (8 / 2) := by
  exact (transfer_to_winners_payout
    (⟨[], 0, 0, 5000000, ((0, 0, 0) : Ticket), 0, 0⟩ : Lottery)
    [7, 7, 0, 0, 0, 0, 0, 0] (by decide) 2 (by decide) (by decide)).1

/-- C3: when the drawn winning identifier has no registered participants in
the current round (the lookup yields the default array), `draw` leaves the
jackpot, the round and the last jackpot unchanged, while still recording the
winning identifier and setting the last-drawing timestamp to the current
block. -/
theorem draw_zero_participants_frame (s : Lottery) (now : BlockNumber)
    (h : (mapGet s.ticket_and_address
            (((240, 240, 0) : Ticket), s.round)).getD defaultAddress =
          defaultAddress) :
    (draw s now).jackpot = s.jackpot ∧ (draw s now).round = s.round ∧
    (draw s now).last_jackpot = s.last_jackpot ∧
    (draw s now).winner_ticket = ((240, 240, 0) : Ticket) ∧
    (draw s now).last_drawing = now := by
  simp [draw, get_winner_or_default, h]

/-- Witness for C3 on a fresh contract (no participants anywhere): drawing at
block 7 keeps pool, round and last pool, and sets the winner ticket and the
timestamp. -/
theorem draw_zero_participants_frame_witness :
    ((mapGet (new 0).ticket_and_address
        (((240, 240, 0) : Ticket), (new 0).round)).getD defaultAddress =
      defaultAddress) ∧
    ((draw (new 0) 7).jackpot = (new 0).jackpot ∧
     (draw (new 0) 7).round = (new 0).round ∧
     (draw (new 0) 7).last_jackpot = (new 0).last_jackpot ∧
     (draw (new 0) 7).winner_ticket = ((240, 240, 0) : Ticket) ∧
     (draw (new 0) 7).last_drawing = 7) :=
  ⟨by decide, draw_zero_participants_frame (new 0) 7 (by decide)⟩

/-- C5: a registration whose transferred value differs from `BET_PRICE` in
either direction is a fatal abort (the `assert!` panic message
"insufficient funds!"), not a recoverable `Error` value; since a panic rolls
the transaction back, no committed state exists and the pool, the mapping and
the round are untouched. -/
theorem register_ticket_wrong_price_traps (s : Lottery) (t : Ticket)
    (c : AccountId) (b : Balance) (now : BlockNumber) (hb : b ≠ BET_PRICE) :
    register_ticket s t c b now = .trap "insufficient funds!" := by
  simp [register_ticket, register_slots, hb]

/-- Witness for C5: paying 999 instead of 1,000,000 aborts. -/
theorem register_ticket_wrong_price_traps_witness :
    (999 : Balance) ≠ BET_PRICE ∧
    register_ticket (new 0) ((1, 1, 1) : Ticket) 5 999 7 =
      .trap "insufficient funds!" :=
  ⟨by decide,
   register_ticket_wrong_price_traps (new 0) ((1, 1, 1) : Ticket) 5 999 7
     (by decide)⟩

/-- C6: starting from a round in which a ticket has no slot array yet,
8 registrations of that ticket (callers paying the exact price, the
rollover window not elapsed, all callers distinct from the default sentinel)
fill its 8 slots in submission order; a 9th registration of the same ticket
in the same round finds slot 7 non-default and aborts with the sold-out
panic, committing nothing. -/
theorem register_eight_fills_then_sold_out (s : Lottery) (t : Ticket)
    (c1 c2 c3 c4 c5 c6 c7 c8 c9 : AccountId) (now : BlockNumber)
    (hnd : ¬(BLOCKS_PER_ROUND ≤ now - s.last_drawing ∧ now ≠ 0))
    (habs : mapGet s.ticket_and_address (t, s.round) = none)
    (h1 : c1 ≠ 0) (h2 : c2 ≠ 0) (h3 : c3 ≠ 0) (h4 : c4 ≠ 0)
    (h5 : c5 ≠ 0) (h6 : c6 ≠ 0) (h7 : c7 ≠ 0) (h8 : c8 ≠ 0) :
    match register_many s t [c1, c2, c3, c4, c5, c6, c7, c8] now with
    | .ok s1 =>
        get_accounts_by_ticket s1 t = [c1, c2, c3, c4, c5, c6, c7, c8] ∧
        s1.round = s.round ∧
        register_ticket s1 t c9 BET_PRICE now = .trap "ticket sold out!"
    | .trap _ => False := by
  simp [register_many, register_ticket, register_slots, mapGet, mapInsert,
    fill_first_empty, get_accounts_by_ticket, habs, hnd,
    h1, h2, h3, h4, h5, h6, h7, h8]

/-- Witness for C6 on a fresh contract, ticket `(1, 1, 1)` and callers
1 to 8, with a 9th attempt by caller 9, all at block 0. -/
theorem register_eight_fills_then_sold_out_witness :
    (¬(BLOCKS_PER_ROUND ≤ (0 : Nat) - (new 0).last_drawing ∧ (0 : Nat) ≠ 0)) ∧
    mapGet (new 0).ticket_and_address (((1, 1, 1) : Ticket), (new 0).round) =
      none ∧
    (match register_many (new 0) ((1, 1, 1) : Ticket)
        [1, 2, 3, 4, 5, 6, 7, 8] 0 with
    | .ok s1 =>
        get_accounts_by_ticket s1 ((1, 1, 1) : Ticket) =
          [1, 2, 3, 4, 5, 6, 7, 8] ∧
        s1.round = (new 0).round ∧
        register_ticket s1 ((1, 1, 1) : Ticket) 9 BET_PRICE 0 =
          .trap "ticket sold out!"
    | .trap _ => False) :=
  ⟨by decide, by decide,
   register_eight_fills_then_sold_out (new 0) ((1, 1, 1) : Ticket)
     1 2 3 4 5 6 7 8 9 0 (by decide) (by decide) (by decide) (by decide)
     (by decide) (by decide) (by decide) (by decide) (by decide) (by decide)⟩

/-- C9: a lookup for a (ticket, current round) pair that was never registered
returns the all-default slot array (the accessor is total, there is no error
path), and the previous-round winners projection returns the default array
when the round counter is 0 instead of underflowing it. -/
theorem lookup_defaults (s : Lottery) (t : Ticket)
    (habs : mapGet s.ticket_and_address (t, s.round) = none) :
    get_accounts_by_ticket s t = defaultAddress ∧
    (s.round = 0 → get_last_winner_or_default s = defaultAddress) := by
  constructor
  · simp [get_accounts_by_ticket, habs]
  · intro h0
    simp [get_last_winner_or_default, h0]

/-- Witness for C9 on a fresh contract and the unregistered ticket
`(9, 9, 9)`. -/
theorem lookup_defaults_witness :
    mapGet (new 0).ticket_and_address (((9, 9, 9) : Ticket), (new 0).round) =
      none ∧
    get_accounts_by_ticket (new 0) ((9, 9, 9) : Ticket) = defaultAddress ∧
    get_last_winner_or_default (new 0) = defaultAddress :=
  ⟨by decide,
   (lookup_defaults (new 0) ((9, 9, 9) : Ticket) (by decide)).1,
   (lookup_defaults (new 0) ((9, 9, 9) : Ticket) (by decide)).2 rfl⟩

/-- C10: `draw` always records the fixed winning identifier `[240, 240, 0]`,
for every state and block (the oracle is never consulted: the model of the
function body has no randomness input because the source body makes no
chain-extension call), so any two draws record the same identifier; and once
the identifier is `[240, 240, 0]`, every successful registration (drawing or
not) keeps it at `[240, 240, 0]` forever. -/
theorem winner_ticket_always_constant :
    (∀ (s : Lottery) (now : BlockNumber),
      (draw s now).winner_ticket = ((240, 240, 0) : Ticket)) ∧
    (∀ (s : Lottery) (t : Ticket) (c : AccountId) (b : Balance)
        (now : BlockNumber) (s1 : Lottery),
      s.winner_ticket = ((240, 240, 0) : Ticket) →
      register_ticket s t c b now = .ok s1 →
      s1.winner_ticket = ((240, 240, 0) : Ticket)) := by
  have hdraw : ∀ (s : Lottery) (now : BlockNumber),
      (draw s now).winner_ticket = ((240, 240, 0) : Ticket) :=
    fun s now => (draw_frame s now).2.1
  refine ⟨hdraw, ?_⟩
  intro s t c b now s1 hwt hreg
  unfold register_ticket at hreg
  cases hrs : register_slots s t c b with
  | trap m =>
      rw [hrs] at hreg
      exact absurd hreg (by simp)
  | ok s2 =>
      rw [hrs] at hreg
      dsimp only at hreg
      by_cases hc : BLOCKS_PER_ROUND ≤ now - s2.last_drawing ∧ now ≠ 0
      · rw [if_pos hc] at hreg
        injection hreg with hreg
        subst hreg
        exact hdraw s2 now
      · rw [if_neg hc] at hreg
        injection hreg with hreg
        subst hreg
        rw [(register_slots_ok_frame s t c b s2 hrs).2.2.1, hwt]

/-- The round and pool dynamics of a single `draw`, used by the round
invariant theorem. -/
theorem draw_round_step (s : Lottery) (now : BlockNumber) :
    s.round ≤ (draw s now).round ∧
    ((draw s now).round = s.round + 1 ↔
      0 < get_number_of_winner (get_winner_or_default
        { s with winner_ticket := ((240, 240, 0) : Ticket),
                 last_drawing := now }) ∧ 0 < s.jackpot) ∧
    ((draw s now).round = s.round + 1 →
      (draw s now).last_jackpot = s.jackpot ∧ (draw s now).jackpot = 0) ∧
    ((draw s now).round = s.round → (draw s now).jackpot = s.jackpot) ∧
    (get_number_of_winner (get_winner_or_default
        { s with winner_ticket := ((240, 240, 0) : Ticket),
                 last_drawing := now }) = 0 →
      (draw s now).round = s.round ∧ (draw s now).jackpot = s.jackpot) := by
  by_cases hwd : get_winner_or_default
      { s with winner_ticket := ((240, 240, 0) : Ticket),
               last_drawing := now } = defaultAddress
  · have hd : draw s now =
        { s with winner_ticket := ((240, 240, 0) : Ticket),
                 last_drawing := now } := by
      simp [draw, hwd]
    have hn : get_number_of_winner (get_winner_or_default
        { s with winner_ticket := ((240, 240, 0) : Ticket),
                 last_drawing := now }) = 0 := by
      rw [hwd]
      decide
    rw [hd, hn]
    refine ⟨Nat.le_refl _, ?_, ?_, fun _ => rfl, fun _ => ⟨rfl, rfl⟩⟩
    · constructor
      · intro h
        have h' : s.round = s.round + 1 := h
        exact absurd h' (by omega)
      · rintro ⟨h, -⟩
        exact absurd h (by decide)
    · intro h
      have h' : s.round = s.round + 1 := h
      exact absurd h' (by omega)
  · have hd : draw s now = transfer_to_winners
        { s with winner_ticket := ((240, 240, 0) : Ticket),
                 last_drawing := now }
        (get_winner_or_default
          { s with winner_ticket := ((240, 240, 0) : Ticket),
                   last_drawing := now }) := by
      simp [draw, hwd]
    rw [hd, transfer_to_winners_eq]
    by_cases hc : 0 < s.jackpot ∧ 0 < get_number_of_winner
        (get_winner_or_default
          { s with winner_ticket := ((240, 240, 0) : Ticket),
                   last_drawing := now })
    · rw [if_pos hc]
      refine ⟨Nat.le_succ _, ⟨fun _ => ⟨hc.2, hc.1⟩, fun _ => rfl⟩,
        fun _ => ⟨rfl, rfl⟩, ?_, ?_⟩
      · intro h
        have h' : s.round + 1 = s.round := h
        exact absurd h' (by omega)
      · intro hn0
        exact absurd hc.2 (by omega)
    · rw [if_neg hc]
      refine ⟨Nat.le_refl _, ?_, ?_, fun _ => rfl, fun _ => ⟨rfl, rfl⟩⟩
      · constructor
        · intro h
          have h' : s.round = s.round + 1 := h
          exact absurd h' (by omega)
        · rintro ⟨ha, hb⟩
          exact absurd ⟨hb, ha⟩ hc
      · intro h
        have h' : s.round = s.round + 1 := h
        exact absurd h' (by omega)

/-- C4: the round counter never decreases (across a draw, and across any
successful registration, which can only change the round through a draw),
and a draw increments it by exactly 1 precisely when it finds at least one
winner slot filled and the pool is nonzero; that closure snapshots the pool
into the last-pool field and zeroes the pool, while a draw with zero current
winners keeps both the round and the pool. -/
theorem draw_round_dynamics :
    (∀ (s : Lottery) (now : BlockNumber),
      s.round ≤ (draw s now).round ∧
      ((draw s now).round = s.round + 1 ↔
        0 < get_number_of_winner (get_winner_or_default
          { s with winner_ticket := ((240, 240, 0) : Ticket),
                   last_drawing := now }) ∧ 0 < s.jackpot) ∧
      ((draw s now).round = s.round + 1 →
        (draw s now).last_jackpot = s.jackpot ∧ (draw s now).jackpot = 0) ∧
      ((draw s now).round = s.round → (draw s now).jackpot = s.jackpot) ∧
      (get_number_of_winner (get_winner_or_default
          { s with winner_ticket := ((240, 240, 0) : Ticket),
                   last_drawing := now }) = 0 →
        (draw s now).round = s.round ∧ (draw s now).jackpot = s.jackpot)) ∧
    (∀ (s : Lottery) (t : Ticket) (c : AccountId) (b : Balance)
        (now : BlockNumber) (s1 : Lottery),
      register_ticket s t c b now = .ok s1 → s.round ≤ s1.round) := by
  refine ⟨draw_round_step, ?_⟩
  intro s t c b now s1 hreg
  unfold register_ticket at hreg
  cases hrs : register_slots s t c b with
  | trap m =>
      rw [hrs] at hreg
      exact absurd hreg (by simp)
  | ok s2 =>
      rw [hrs] at hreg
      dsimp only at hreg
      have hr2 : s2.round = s.round := (register_slots_ok_frame s t c b s2 hrs).1
      by_cases hc : BLOCKS_PER_ROUND ≤ now - s2.last_drawing ∧ now ≠ 0
      · rw [if_pos hc] at hreg
        injection hreg with hreg
        subst hreg
        rw [← hr2]
        exact (draw_round_step s2 now).1
      · rw [if_neg hc] at hreg
        injection hreg with hreg
        subst hreg
        omega

/-- Witness for C4: drawing at block 12 on a state whose winning ticket
`[240, 240, 0]` has one participant in round 0 and pool 8,000,000 advances
the round from 0 to 1. -/
theorem draw_round_dynamics_witness :
    (draw (⟨[((((240, 240, 0) : Ticket), 0), [5, 0, 0, 0, 0, 0, 0, 0])],
        0, 0, 8000000, ((0, 0, 0) : Ticket), 0, 0⟩ : Lottery) 12).round =
      (⟨[((((240, 240, 0) : Ticket), 0), [5, 0, 0, 0, 0, 0, 0, 0])],
        0, 0, 8000000, ((0, 0, 0) : Ticket), 0, 0⟩ : Lottery).round + 1 :=
  (draw_round_dynamics.1
    (⟨[((((240, 240, 0) : Ticket), 0), [5, 0, 0, 0, 0, 0, 0, 0])],
      0, 0, 8000000, ((0, 0, 0) : Ticket), 0, 0⟩ : Lottery) 12).2.1.mpr
    ⟨by decide, by decide⟩

/-- C7: after a successful slot assignment, `register_ticket` triggers a draw
exactly when `now - last_drawing >= BLOCKS_PER_ROUND` and `now != 0`; the
assignment itself never changes the drawing timestamp or the round, so when
the window has not elapsed the call returns with both unchanged and no draw
happens. -/
theorem register_rollover_iff (s : Lottery) (t : Ticket) (c : AccountId)
    (b : Balance) (now : BlockNumber) (s1 : Lottery)
    (h : register_slots s t c b = .ok s1) :
    register_ticket s t c b now =
      (if BLOCKS_PER_ROUND ≤ now - s.last_drawing ∧ now ≠ 0 then
        .ok (draw s1 now)
      else .ok s1) ∧
    s1.last_drawing = s.last_drawing ∧ s1.round = s.round ∧
    (¬(BLOCKS_PER_ROUND ≤ now - s.last_drawing ∧ now ≠ 0) →
      register_ticket s t c b now = .ok s1) := by
  obtain ⟨hr, hl, -, -⟩ := register_slots_ok_frame s t c b s1 h
  have hreg : register_ticket s t c b now =
      if BLOCKS_PER_ROUND ≤ now - s1.last_drawing ∧ now ≠ 0 then
        .ok (draw s1 now)
      else .ok s1 := by
    unfold register_ticket
    rw [h]
  rw [hl] at hreg
  refine ⟨hreg, hl, hr, ?_⟩
  intro hc
  rw [hreg, if_neg hc]

/-- Witness for C7: registering ticket `(2, 2, 2)` on a fresh contract at
block 3, before the 10-block window has elapsed, commits the slot assignment
and does not draw. -/
theorem register_rollover_iff_witness :
    register_slots (new 0) ((2, 2, 2) : Ticket) 5 BET_PRICE =
      .ok (⟨[((((2, 2, 2) : Ticket), 0), [5, 0, 0, 0, 0, 0, 0, 0]),
             ((((0, 0, 0) : Ticket), 0), [0, 0, 0, 0, 0, 0, 0, 0])],
            0, 0, 1000000, ((0, 0, 0) : Ticket), 0, 0⟩ : Lottery) ∧
    register_ticket (new 0) ((2, 2, 2) : Ticket) 5 BET_PRICE 3 =
      .ok (⟨[((((2, 2, 2) : Ticket), 0), [5, 0, 0, 0, 0, 0, 0, 0]),
             ((((0, 0, 0) : Ticket), 0), [0, 0, 0, 0, 0, 0, 0, 0])],
            0, 0, 1000000, ((0, 0, 0) : Ticket), 0, 0⟩ : Lottery) :=
  ⟨by decide,
   (register_rollover_iff (new 0) ((2, 2, 2) : Ticket) 5 BET_PRICE 3
      (⟨[((((2, 2, 2) : Ticket), 0), [5, 0, 0, 0, 0, 0, 0, 0]),
         ((((0, 0, 0) : Ticket), 0), [0, 0, 0, 0, 0, 0, 0, 0])],
        0, 0, 1000000, ((0, 0, 0) : Ticket), 0, 0⟩ : Lottery)
      (by decide)).2.2.2 (by decide)⟩

/-- C8: every slot array stored by the engine has exactly 8 entries and its
non-default entries form a left-aligned prefix; this holds for the freshly
constructed contract and is preserved by every successful registration
(which places the payer in the first empty slot, scanning left to right) and
by every draw. -/
theorem slots_invariant :
    (∀ b0 : BlockNumber, wf (new b0) = true) ∧
    (∀ (s : Lottery) (t : Ticket) (c : AccountId) (b : Balance)
        (now : BlockNumber) (s1 : Lottery),
      wf s = true → register_ticket s t c b now = .ok s1 → wf s1 = true) ∧
    (∀ (s : Lottery) (now : BlockNumber),
      wf s = true → wf (draw s now) = true) := by
  have hdraw : ∀ (s : Lottery) (now : BlockNumber),
      wf s = true → wf (draw s now) = true := by
    intro s now hs
    unfold wf
    rw [(draw_frame s now).1]
    exact hs
  refine ⟨fun b0 => rfl, ?_, hdraw⟩
  intro s t c b now s1 hs hreg
  unfold register_ticket at hreg
  cases hrs : register_slots s t c b with
  | trap m =>
      rw [hrs] at hreg
      exact absurd hreg (by simp)
  | ok s2 =>
      rw [hrs] at hreg
      dsimp only at hreg
      have hs2 : wf s2 = true := register_slots_wf s t c b s2 hs hrs
      by_cases hc : BLOCKS_PER_ROUND ≤ now - s2.last_drawing ∧ now ≠ 0
      · rw [if_pos hc] at hreg
        injection hreg with hreg
        subst hreg
        exact hdraw s2 now hs2
      · rw [if_neg hc] at hreg
        injection hreg with hreg
        subst hreg
        exact hs2

/-- Witness for C8: the invariant holds of the fresh contract and of the
state reached by registering and then drawing on it. -/
theorem slots_invariant_witness :
    wf (new 0) = true ∧ wf (draw (new 0) 3) = true :=
  ⟨slots_invariant.1 0, slots_invariant.2.2 (new 0) 3 (by decide)⟩

/-- Witness for C10: a draw on a fresh contract records `[240, 240, 0]`, and
a successful registration starting from a state whose winner ticket is
already `[240, 240, 0]` keeps it. -/
theorem winner_ticket_always_constant_witness :
    (draw (new 0) 5).winner_ticket = ((240, 240, 0) : Ticket) ∧
    (⟨[((((1, 1, 1) : Ticket), 0), [5, 0, 0, 0, 0, 0, 0, 0])], 0, 0,
        1000000, ((240, 240, 0) : Ticket), 0, 0⟩ : Lottery).winner_ticket =
      ((240, 240, 0) : Ticket) :=
  ⟨winner_ticket_always_constant.1 (new 0) 5,
   winner_ticket_always_constant.2
     (⟨[], 0, 0, 0, ((240, 240, 0) : Ticket), 0, 0⟩ : Lottery)
     ((1, 1, 1) : Ticket) 5 BET_PRICE 0
     (⟨[((((1, 1, 1) : Ticket), 0), [5, 0, 0, 0, 0, 0, 0, 0])], 0, 0,
        1000000, ((240, 240, 0) : Ticket), 0, 0⟩ : Lottery)
     rfl (by decide)⟩

end LotterySpec
